import Mathlib

/-!
Shallow embedding of the analytics pipeline of `appbus.py` (School Bus
Safety & Maintenance Dashboard).

Modelling conventions:
* Numeric cells are rationals (`ℚ`); the source computes in float64, and the
  embedding is the exact-arithmetic idealisation of the same formulas.
* A raw CSV is a list of named columns whose cells may be missing
  (`Option ℚ`, a missing cell standing for pandas `NaN`).  `df.bfill().ffill()`
  is modelled on these optional cells; the rest of the pipeline runs on
  columns whose cells are all resolved.  A present column that still has an
  unresolved cell after both fills (i.e. a column with no valid value at all)
  is rejected with `dataQualityError`; such inputs produce all-NaN cascades in
  the source and are outside every behaviour modelled here.
* The two scikit-learn models and the pandas rolling standard deviation are
  external library calls; they enter the model as oracle inputs
  (`Oracles.anomalyFlags` for `IsolationForest.fit_predict`, `Oracles.proba`
  for `RandomForestClassifier.predict_proba[:,1]`, `Oracles.stdFn` for
  `Series.rolling(100).std()`, whose square root has no exact rational value).
  Every other windowed statistic (rolling quantiles, means, sums) is
  modelled exactly.
* `idle_rpm_threshold` is `Option ℚ` because the source assigns a series
  indexed only by the idle rows (`df.loc[df.speed < 5, 'rpm'] ...`); pandas
  index alignment leaves `NaN` (here `none`) on every non-idle row.
-/

-- Batteries marks the `ℚ` field operations irreducible, which stops concrete
-- pipeline runs from evaluating inside `decide`; restore default transparency.
set_option allowUnsafeReducibility true in
attribute [semireducible] Rat.add Rat.sub Rat.mul Rat.div Rat.inv Rat.ofScientific

namespace Bus

/-- One pandas column cell: `some q` is a value, `none` is `NaN`. -/
abbrev Cell := Option ℚ

/-- Raw uploaded CSV: named columns of optional cells (`pd.read_csv` output). -/
structure RawCSV where
  columns : List (String × List Cell)
deriving Repr, DecidableEq

/-- Forward fill with a running last-seen value (helper for `ffill`). -/
def ffillAux : Cell → List Cell → List Cell
  | _, [] => []
  | _, some x :: rest => some x :: ffillAux (some x) rest
  | last, none :: rest => last :: ffillAux last rest

/-- `Series.ffill()`: each `NaN` takes the nearest earlier valid value. -/
def ffill (xs : List Cell) : List Cell := ffillAux none xs

/-- `Series.bfill()`: each `NaN` takes the nearest later valid value. -/
def bfill (xs : List Cell) : List Cell := (ffill xs.reverse).reverse

/-- `str.lower()` on a column name: `String.toLower`, i.e. `Char.toLower`
mapped over the characters, written on the character list so that the kernel
can evaluate it (`String.map` is defined by well-founded recursion on byte
positions and does not reduce). -/
def lowerName (s : String) : String := ⟨s.data.map Char.toLower⟩

/-- `df.columns = df.columns.str.lower()` (appbus.py line 25). -/
def lowercaseCols (csv : RawCSV) : RawCSV :=
  ⟨csv.columns.map (fun c => (lowerName c.1, c.2))⟩

/-- `df = df.bfill().ffill()` (appbus.py line 26), applied column-wise. -/
def fillFrame (csv : RawCSV) : RawCSV :=
  ⟨csv.columns.map (fun c => (c.1, ffill (bfill c.2)))⟩

/-- `df[name]`: the first column carrying `name`, or `none` (pandas `KeyError`). -/
def lookupCol (csv : RawCSV) (name : String) : Option (List Cell) :=
  (csv.columns.find? (fun c => c.1 == name)).map (fun c => c.2)

/-- Whether the frame has a column called `name` after lowercase normalisation. -/
def hasColumn (csv : RawCSV) (name : String) : Bool :=
  (lowercaseCols csv).columns.any (fun c => c.1 == name)

/-- A column all of whose cells are resolved; `none` if some `NaN` survives. -/
def resolveCol (xs : List Cell) : Option (List ℚ) := xs.mapM id

/-- `Series.clip(lo, hi)` on a resolved cell. -/
def clipQ (lo hi x : ℚ) : ℚ := max lo (min x hi)

/-- The trailing window of width `w` ending at index `i` (inclusive), as used
by `Series.rolling(w)`: the last `min (i+1) w` elements of the prefix. -/
def trailing (xs : List ℚ) (i w : Nat) : List ℚ :=
  (xs.take (i + 1)).drop (i + 1 - w)

/-- The last `w` elements of a list. -/
def lastN (w : Nat) (xs : List ℚ) : List ℚ := xs.drop (xs.length - w)

/-- Arithmetic mean (`ℚ` division by zero yields 0 on the empty list). -/
def meanQ (xs : List ℚ) : ℚ := xs.sum / xs.length

/-- Linear-interpolation quantile of a list, as pandas
`rolling(...).quantile(q)` computes it (default `interpolation='linear'`):
sort the window, take position `h = q * (n-1)`, interpolate between the
neighbouring order statistics. -/
def quantileLinear (xs : List ℚ) (q : ℚ) : ℚ :=
  let s := xs.insertionSort (fun a b => a ≤ b)
  let n := s.length
  if n = 0 then 0
  else
    let h : ℚ := q * ((n : ℚ) - 1)
    let k : ℕ := (⌊h⌋).toNat
    let lo := s.getD k 0
    let hi := s.getD (min (k + 1) (n - 1)) 0
    lo + (h - (k : ℚ)) * (hi - lo)

/-- `df['speed'].shift(1).fillna(method='bfill')` (line 29): the previous
sample's speed; the first sample backfills from the first shifted value,
which is `speed[0]` itself.  (On a one-row trip the source leaves `NaN`
instead; every consumer of `speed_prev` — the deltas and the harsh-braking
test — then produces exactly the values this total model produces, so the
difference is unobservable downstream.) -/
def speed_prev (speed : List ℚ) (i : Nat) : ℚ :=
  if i = 0 then speed.getD 0 0 else speed.getD (i - 1) 0

/-- `df['rpm'].shift(1).fillna(method='bfill')` (line 30). -/
def rpm_prev (rpm : List ℚ) (i : Nat) : ℚ :=
  if i = 0 then rpm.getD 0 0 else rpm.getD (i - 1) 0

/-- `df['speed_increase'] = (df.speed - df.speed_prev).clip(-50, 50).fillna(0)`
(lines 32-36); on resolved columns the `fillna` is a no-op. -/
def speed_increase (speed : List ℚ) (i : Nat) : ℚ :=
  clipQ (-50) 50 (speed.getD i 0 - speed_prev speed i)

/-- `df['rpm_increase'] = (df.rpm - df.rpm_prev).clip(-5000, 5000).fillna(0)`
(lines 38-42). -/
def rpm_increase (rpm : List ℚ) (i : Nat) : ℚ :=
  clipQ (-5000) 5000 (rpm.getD i 0 - rpm_prev rpm i)

/-- `df['dynamic_speed_limit'] = df.speed.rolling(100, min_periods=10)
.quantile(0.85).fillna(80)` (lines 45-50): the 85th percentile of the
trailing ≤100-sample speed window, or 80 while fewer than 10 samples exist. -/
def dynamic_speed_limit (speed : List ℚ) (i : Nat) : ℚ :=
  if 10 ≤ (trailing speed i 100).length then
    quantileLinear (trailing speed i 100) (85 / 100)
  else 80

/-- The rpm readings at idle indices (`speed < 5`) up to and including `i`:
the prefix of the sub-series `df.loc[df.speed < 5, 'rpm']` visible at row `i`. -/
def idleRpmPrefix (speed rpm : List ℚ) (i : Nat) : List ℚ :=
  ((List.range (i + 1)).filter (fun j => decide (speed.getD j 0 < 5))).map
    (fun j => rpm.getD j 0)

/-- `df['idle_rpm_threshold'] = df.loc[df.speed < 5, 'rpm']
.rolling(100, min_periods=10).quantile(0.90).ffill().fillna(1500)`
(lines 52-58).  The rolling window runs over the idle sub-series only; the
`ffill` acts inside that sub-series (where the only `NaN`s are the leading
ones, so it is a no-op) and the `fillna(1500)` turns those leading `NaN`s
into 1500.  Assigning the sub-series back into the frame aligns on the index:
every non-idle row receives `NaN`, modelled as `none`. -/
def idle_rpm_threshold (speed rpm : List ℚ) (i : Nat) : Option ℚ :=
  if speed.getD i 0 < 5 then
    some (if 10 ≤ (idleRpmPrefix speed rpm i).length
          then quantileLinear (lastN 100 (idleRpmPrefix speed rpm i)) (90 / 100)
          else 1500)
  else none

/-- `df['speeding_score'] = (-10 * (df.speed - df.dynamic_speed_limit)
/ df.dynamic_speed_limit).where(df.speed > df.dynamic_speed_limit, 0)
.fillna(0)` (lines 64-70). -/
def speeding_score (speed : List ℚ) (i : Nat) : ℚ :=
  if speed.getD i 0 > dynamic_speed_limit speed i then
    -10 * (speed.getD i 0 - dynamic_speed_limit speed i) / dynamic_speed_limit speed i
  else 0

/-- `idle_mask = (df.speed < 5) & (df.rpm > df.idle_rpm_threshold)`;
`df['idle_score'] = (-5 * (df.rpm - thr) / thr).where(idle_mask, 0).fillna(0)`
(lines 72-78).  On a row whose threshold is `NaN` (`none`) the mask is false
and the score is 0. -/
def idle_score (speed rpm : List ℚ) (i : Nat) : ℚ :=
  match idle_rpm_threshold speed rpm i with
  | some t =>
      if speed.getD i 0 < 5 ∧ rpm.getD i 0 > t then
        -5 * (rpm.getD i 0 - t) / t
      else 0
  | none => 0

/-- `df['harsh_braking_score'] = (df.speed_prev - df.speed)
.apply(lambda x: -min(15, x // 2.5) if x > 10 else 0).fillna(0)`
(lines 80-85); `x // 2.5` is floor division, i.e. `⌊x / 2.5⌋`. -/
def brakingDelta (speed : List ℚ) (i : Nat) : ℚ :=
  speed_prev speed i - speed.getD i 0

def harsh_braking_score (speed : List ℚ) (i : Nat) : ℚ :=
  if brakingDelta speed i > 10 then
    -((min 15 ⌊brakingDelta speed i / (5 / 2)⌋ : ℤ) : ℚ)
  else 0

/-- `accel_mask = (df.speed_increase > 15) & (df.rpm_increase > 750)`;
`df['acceleration_score'] = np.where(accel_mask, -10, 0)` (lines 87-89). -/
def acceleration_score (speed rpm : List ℚ) (i : Nat) : ℚ :=
  if speed_increase speed i > 15 ∧ rpm_increase rpm i > 750 then -10 else 0

/-- External library calls entering the model as oracles (see the header). -/
structure Oracles where
  /-- Per-row outlier flags of `IsolationForest(...).fit_predict == -1` (lines 96-98). -/
  anomalyFlags : List Bool
  /-- Per-row `RandomForestClassifier().predict_proba(X)[:,1]` (line 144). -/
  proba : List ℚ
  /-- `Series.rolling(100).std()` on a full 100-sample window (line 133). -/
  stdFn : List ℚ → ℚ

/-- `df['anomaly_score'] = np.where(clf.fit_predict(features) == -1, -20, 0)`
(lines 96-100), from the oracle's flags. -/
def anomaly_score (flags : List Bool) (i : Nat) : ℚ :=
  if flags.getD i false then -20 else 0

/-- `df['total_score'] = df[[five score columns]].sum(axis=1).fillna(0)`
(lines 102-107). -/
def total_score_def (speed rpm : List ℚ) (flags : List Bool) (i : Nat) : ℚ :=
  speeding_score speed i + idle_score speed rpm i + harsh_braking_score speed i +
    acceleration_score speed rpm i + anomaly_score flags i

/-- `df.get('engine_load', 50)` (line 115): column value if present, else 50. -/
def engineLoadAt (load? : Option (List ℚ)) (i : Nat) : ℚ :=
  match load? with
  | some l => l.getD i 0
  | none => 50

/-- The per-row base series `(df.rpm * engine_load) / 500000` (line 115). -/
def stressBase (rpm : List ℚ) (load? : Option (List ℚ)) : List ℚ :=
  (List.range rpm.length).map (fun j => rpm.getD j 0 * engineLoadAt load? j / 500000)

/-- `df['engine_stress'] = ((df.rpm * engine_load) / 500000)
.rolling(10, min_periods=1).mean().clip(0, 100).fillna(0)` (lines 114-120). -/
def engine_stress (rpm : List ℚ) (load? : Option (List ℚ)) (i : Nat) : ℚ :=
  clipQ 0 100 (meanQ (trailing (stressBase rpm load?) i 10))

/-- The per-row base series `df.harsh_braking_score.abs() / 15` (line 124). -/
def brakeBase (speed : List ℚ) : List ℚ :=
  (List.range speed.length).map (fun j => |harsh_braking_score speed j| / 15)

/-- `df['brake_wear'] = (df.harsh_braking_score.abs() / 15)
.rolling(5, min_periods=1).sum().clip(0, 100).fillna(0)` (lines 122-129). -/
def brake_wear (speed : List ℚ) (i : Nat) : ℚ :=
  clipQ 0 100 (trailing (brakeBase speed) i 5).sum

/-- `df['tire_wear'] = (df.speed.rolling(100).std() * 0.5).clip(0, 100)
.fillna(0)` (lines 131-136).  `rolling(100)` defaults `min_periods` to the
window size, so the value is `NaN` (then filled to 0) before 100 samples;
the standard deviation itself is the oracle `stdFn`. -/
def tire_wear (stdFn : List ℚ → ℚ) (speed : List ℚ) (i : Nat) : ℚ :=
  if i + 1 < 100 then 0
  else clipQ 0 100 (stdFn (trailing speed i 100) * (1 / 2))

/-- `df['maintenance_urgency'] = model.predict_proba(X)[:,1] * 100`
(line 144), from the oracle's per-row probabilities. -/
def maintenance_urgency (proba : List ℚ) (i : Nat) : ℚ :=
  proba.getD i 0 * 100

/-- One fully processed row of the frame: every derived column of
`process_data`, `calculate_scores` and `maintenance_system`. -/
structure Sample where
  speed : ℚ
  rpm : ℚ
  speed_prev : ℚ
  rpm_prev : ℚ
  speed_increase : ℚ
  rpm_increase : ℚ
  dynamic_speed_limit : ℚ
  idle_rpm_threshold : Option ℚ
  speeding_score : ℚ
  idle_score : ℚ
  harsh_braking_score : ℚ
  acceleration_score : ℚ
  anomaly_score : ℚ
  total_score : ℚ
  engine_stress : ℚ
  brake_wear : ℚ
  tire_wear : ℚ
  maintenance_urgency : ℚ
deriving Repr, DecidableEq, Inhabited

/-- Row `i` of the processed frame, assembled from the column definitions. -/
def mkSample (speed rpm : List ℚ) (load? : Option (List ℚ)) (o : Oracles)
    (i : Nat) : Sample where
  speed := speed.getD i 0
  rpm := rpm.getD i 0
  speed_prev := speed_prev speed i
  rpm_prev := rpm_prev rpm i
  speed_increase := speed_increase speed i
  rpm_increase := rpm_increase rpm i
  dynamic_speed_limit := dynamic_speed_limit speed i
  idle_rpm_threshold := idle_rpm_threshold speed rpm i
  speeding_score := speeding_score speed i
  idle_score := idle_score speed rpm i
  harsh_braking_score := harsh_braking_score speed i
  acceleration_score := acceleration_score speed rpm i
  anomaly_score := anomaly_score o.anomalyFlags i
  total_score := total_score_def speed rpm o.anomalyFlags i
  engine_stress := engine_stress rpm load? i
  brake_wear := brake_wear speed i
  tire_wear := tire_wear o.stdFn speed i
  maintenance_urgency := maintenance_urgency o.proba i

/-- The processed Trip: one `Sample` per row of the frame. -/
def buildTrip (speed rpm : List ℚ) (load? : Option (List ℚ)) (o : Oracles) :
    List Sample :=
  (List.range speed.length).map (mkSample speed rpm load? o)

/-- Fatal pipeline failures (spec §7 taxonomy).  `schemaError` is the spec's
name for the `KeyError` the source raises on `df['speed']` / `df['rpm']` when
a required column is absent, caught by the `try/except` at lines 193-202 so
that no Trip is stored.  `dataQualityError` covers a present column that the
bfill/ffill pass cannot resolve to values (all cells `NaN`). -/
inductive PipelineError where
  | schemaError
  | dataQualityError
deriving Repr, DecidableEq

/-- The whole processing pipeline behind the upload handler (lines 193-202):
lowercase the column names, bfill/ffill the frame (line 25-26), then run
`process_data` / `calculate_scores` / `maintenance_system`; a missing
required column surfaces as `schemaError` and no Trip is produced.
Lines 25-26 of the source are `cleanFrame`: normalise the column names, then
bfill/ffill the frame. -/
def cleanFrame (csv : RawCSV) : RawCSV := fillFrame (lowercaseCols csv)

def process (csv : RawCSV) (o : Oracles) : Except PipelineError (List Sample) :=
  match lookupCol (cleanFrame csv) "speed", lookupCol (cleanFrame csv) "rpm" with
  | some sCol, some rCol =>
    match resolveCol sCol, resolveCol rCol with
    | some speed, some rpm =>
      match lookupCol (cleanFrame csv) "engine_load" with
      | some lCol =>
        match resolveCol lCol with
        | some load => Except.ok (buildTrip speed rpm (some load) o)
        | none => Except.error PipelineError.dataQualityError
      | none => Except.ok (buildTrip speed rpm none o)
    | _, _ => Except.error PipelineError.dataQualityError
  | _, _ => Except.error PipelineError.schemaError

/-- One maintenance action of the recommendation (lines 184-188).  `urgency`
holds the raw metric value that the source renders as the one-decimal
percentage string `f"{value:.1f}%"`. -/
structure Action where
  component : String
  urgency : ℚ
  steps : List String
deriving Repr, DecidableEq

/-- The recommendation object `rec` of lines 151-190.  The source encodes the
status as the colour strings `red` / `orange` / `green`. -/
structure Recommendation where
  status : String
  icon : String
  actions : List Action
deriving Repr, DecidableEq

/-- Engine checklist (lines 165-169). -/
def engineSteps : List String :=
  ["Check coolant levels", "Inspect oil quality", "Clean air filters"]

/-- Brake checklist (lines 170-174). -/
def brakeSteps : List String :=
  ["Measure pad thickness", "Check fluid levels", "Test ABS sensors"]

/-- Tire checklist (lines 175-179). -/
def tireSteps : List String :=
  ["Check tread depth", "Verify pressure", "Inspect for damage"]

/-- `get_maintenance_recommendations` (lines 148-190) applied to the last row
`last = df.iloc[-1]`: status from `maintenance_urgency`, then one action per
wear metric above its threshold, in the fixed dict order engine, brakes,
tires. -/
def get_maintenance_recommendations (last : Sample) : Recommendation :=
  let status :=
    if last.maintenance_urgency > 75 then "red"
    else if last.maintenance_urgency > 50 then "orange"
    else "green"
  let icon :=
    if last.maintenance_urgency > 75 then "🚨"
    else if last.maintenance_urgency > 50 then "⚠️"
    else "✅"
  let actions :=
    (if last.engine_stress > 80 then [Action.mk "Engine" last.engine_stress engineSteps] else [])
      ++ (if last.brake_wear > 60 then [Action.mk "Brakes" last.brake_wear brakeSteps] else [])
      ++ (if last.tire_wear > 70 then [Action.mk "Tires" last.tire_wear tireSteps] else [])
  ⟨status, icon, actions⟩

/-- The recommendation of a (nonempty) processed trip: the source reads
`df.iloc[-1]`. -/
def recommendLast (trip : List Sample) (h : trip ≠ []) : Recommendation :=
  get_maintenance_recommendations (trip.getLast h)

/-- Modelled from the spec: §3/§4.6/§7 name the status vocabulary
`ok` / `warning` / `critical`, which the source realises as the colour
strings `green` / `orange` / `red`.  This is the spec-side renaming used to
compare the source's statuses with the spec's words. -/
def specStatusName : String → String
  | "red" => "critical"
  | "orange" => "warning"
  | _ => "ok"

/-! ### Concrete inputs used by the witnesses -/

/-- Trivial oracle: no anomaly flags, no probabilities, zero rolling std. -/
def oracle0 : Oracles := ⟨[], [], fun _ => 0⟩

/-- A one-row upload with capitalised headers and both required columns. -/
def csvW : RawCSV := ⟨[("Speed", [some 10]), ("RPM", [some 2000])]⟩

/-- Oracle for the one-row upload: flagged as anomaly, class-1 probability ½. -/
def oracleW : Oracles := ⟨[true], [1 / 2], fun _ => 0⟩

/-- Same upload, but the random labels led the classifier to probability ¾. -/
def oracleW2 : Oracles := ⟨[true], [3 / 4], fun _ => 0⟩

/-- The Trip the pipeline builds from `csvW`. -/
def tripW : List Sample := buildTrip [10] [2000] none oracleW

/-- A two-row trip decelerating from 60 to 40 (the harsh-braking scenario). -/
def tripB : List Sample := buildTrip [60, 40] [3000, 2000] none oracle0

/-- A last sample with urgency 80 (used by the C7 witness). -/
def sampleC7 : Sample := { (default : Sample) with maintenance_urgency := 80 }

/-- The C8 scenario sample: `engine_stress = 85`, `brake_wear = 40`,
`tire_wear = 10`, `maintenance_urgency = 80`. -/
def sampleC8 : Sample :=
  { (default : Sample) with
    engine_stress := 85, brake_wear := 40, tire_wear := 10,
    maintenance_urgency := 80 }

/-! ### Supporting lemmas -/

theorem clipQ_bounds (lo hi x : ℚ) (h : lo ≤ hi) :
    lo ≤ clipQ lo hi x ∧ clipQ lo hi x ≤ hi := by
  unfold clipQ
  exact ⟨le_max_left _ _, max_le h (min_le_right _ _)⟩

theorem mem_buildTrip {speed rpm : List ℚ} {load? : Option (List ℚ)}
    {o : Oracles} {s : Sample} (h : s ∈ buildTrip speed rpm load? o) :
    ∃ i, i < speed.length ∧ s = mkSample speed rpm load? o i := by
  unfold buildTrip at h
  obtain ⟨i, hi, rfl⟩ := List.mem_map.mp h
  exact ⟨i, List.mem_range.mp hi, rfl⟩

theorem process_ok_shape (csv : RawCSV) (o : Oracles) (trip : List Sample)
    (h : process csv o = Except.ok trip) :
    ∃ speed rpm load?, trip = buildTrip speed rpm load? o := by
  unfold process at h
  split at h
  · split at h
    · split at h
      · split at h
        · injection h with h
          exact ⟨_, _, _, h.symm⟩
        · exact Except.noConfusion h
      · injection h with h
        exact ⟨_, _, _, h.symm⟩
    · exact Except.noConfusion h
  · exact Except.noConfusion h

theorem getD_unit_bounds (l : List ℚ) (i : Nat)
    (h : ∀ p ∈ l, 0 ≤ p ∧ p ≤ 1) : 0 ≤ l.getD i 0 ∧ l.getD i 0 ≤ 1 := by
  induction l generalizing i with
  | nil => simp [List.getD]
  | cons a l ih =>
    cases i with
    | zero => simpa using h a (List.mem_cons_self a l)
    | succ j =>
      simpa using ih j (fun p hp => h p (List.mem_cons_of_mem a hp))

theorem harsh_braking_score_bounds (speed : List ℚ) (i : Nat) :
    -15 ≤ harsh_braking_score speed i ∧ harsh_braking_score speed i ≤ 0 := by
  unfold harsh_braking_score
  split
  · next hgt =>
    have hfl : (0 : ℤ) ≤ ⌊brakingDelta speed i / (5 / 2)⌋ := by
      apply Int.le_floor.mpr
      push_cast
      linarith
    have hmin0 : (0 : ℤ) ≤ min 15 ⌊brakingDelta speed i / (5 / 2)⌋ := le_min (by norm_num) hfl
    have hmin15 : (min 15 ⌊brakingDelta speed i / (5 / 2)⌋ : ℤ) ≤ 15 := min_le_left _ _
    have h0 : (0 : ℚ) ≤ ((min 15 ⌊brakingDelta speed i / (5 / 2)⌋ : ℤ) : ℚ) := by
      exact_mod_cast hmin0
    have h15 : ((min 15 ⌊brakingDelta speed i / (5 / 2)⌋ : ℤ) : ℚ) ≤ 15 := by
      exact_mod_cast hmin15
    constructor <;> linarith
  · norm_num

theorem sum_le_length (l : List ℚ) (h : ∀ x ∈ l, x ≤ 1) :
    l.sum ≤ (l.length : ℚ) := by
  induction l with
  | nil => simp
  | cons a l ih =>
    have ha := h a (List.mem_cons_self a l)
    have hl := ih (fun x hx => h x (List.mem_cons_of_mem a hx))
    simp only [List.sum_cons, List.length_cons]
    push_cast
    linarith

theorem trailing_length_le (xs : List ℚ) (i w : Nat) :
    (trailing xs i w).length ≤ w := by
  unfold trailing
  rw [List.length_drop, List.length_take]
  omega

theorem mem_trailing {xs : List ℚ} {i w : Nat} {x : ℚ}
    (h : x ∈ trailing xs i w) : x ∈ xs :=
  List.mem_of_mem_take (List.mem_of_mem_drop h)

theorem mem_brakeBase {speed : List ℚ} {x : ℚ} (h : x ∈ brakeBase speed) :
    0 ≤ x ∧ x ≤ 1 := by
  unfold brakeBase at h
  obtain ⟨j, _, rfl⟩ := List.mem_map.mp h
  obtain ⟨h1, h2⟩ := harsh_braking_score_bounds speed j
  have habs : |harsh_braking_score speed j| ≤ 15 := abs_le.mpr ⟨by linarith, by linarith⟩
  constructor
  · positivity
  · rw [div_le_one (by norm_num)]
    exact habs

theorem lookup_cleanFrame_eq_none {csv : RawCSV} {n : String}
    (h : hasColumn csv n = false) : lookupCol (cleanFrame csv) n = none := by
  unfold hasColumn at h
  unfold cleanFrame fillFrame lookupCol
  rw [Option.map_eq_none']
  rw [List.find?_eq_none]
  intro x hx
  obtain ⟨a, ha, rfl⟩ := List.mem_map.mp hx
  have := (List.any_eq_false.mp h) a ha
  simpa using this

theorem buildTrip_getD (speed rpm : List ℚ) (load? : Option (List ℚ))
    (o : Oracles) {i : Nat} (hi : i < speed.length) :
    (buildTrip speed rpm load? o).getD i default = mkSample speed rpm load? o i := by
  unfold buildTrip
  have h1 : i < ((List.range speed.length).map (mkSample speed rpm load? o)).length := by
    simpa using hi
  rw [List.getD_eq_getElem _ _ h1, List.getElem_map, List.getElem_range]

theorem mem_ite_singleton {α : Type} {p : Prop} [Decidable p] {a x : α}
    (h : a ∈ (if p then [x] else [])) : a = x := by
  split at h
  · simpa using h
  · simp at h

theorem brake_wear_le_five_aux (speed : List ℚ) (i : Nat) :
    brake_wear speed i ≤ 5 := by
  unfold brake_wear
  have hsum : (trailing (brakeBase speed) i 5).sum ≤ 5 := by
    calc (trailing (brakeBase speed) i 5).sum
        ≤ ((trailing (brakeBase speed) i 5).length : ℚ) :=
          sum_le_length _ (fun x hx => (mem_brakeBase (mem_trailing hx)).2)
      _ ≤ 5 := by exact_mod_cast trailing_length_le (brakeBase speed) i 5
  unfold clipQ
  exact max_le (by norm_num) (le_trans (min_le_left _ _) hsum)

/-! ### Claims -/

/-- C1: For every input dataset in which a required column (`speed` or `rpm`)
is absent after case-insensitive lowercase normalisation of column names,
processing fails with a `SchemaError` surfaced to the caller (the source's
`KeyError` caught at lines 193-202) and no Trip — not even a partial one —
is produced. -/
theorem missing_required_column_yields_schema_error (csv : RawCSV) (o : Oracles)
    (h : hasColumn csv "speed" = false ∨ hasColumn csv "rpm" = false) :
    process csv o = Except.error PipelineError.schemaError := by
  unfold process
  rcases h with h | h
  · rw [lookup_cleanFrame_eq_none h]
  · rw [lookup_cleanFrame_eq_none h]
    cases lookupCol (cleanFrame csv) "speed" <;> rfl

/-- Witness for C1: an upload with only a `Speed` column has no `rpm` column
and is rejected with `schemaError`. -/
theorem missing_required_column_yields_schema_error_witness :
    hasColumn ⟨[("Speed", [some (10 : ℚ)])]⟩ "rpm" = false ∧
    process ⟨[("Speed", [some (10 : ℚ)])]⟩ oracle0 =
      Except.error PipelineError.schemaError :=
  ⟨by decide,
    missing_required_column_yields_schema_error _ oracle0 (Or.inr (by decide))⟩

/-- C3: For every sample, `total_score` equals the exact arithmetic sum of its
five sub-scores, with no additional clipping applied to the sum. -/
theorem total_score_is_sum_of_subscores (speed rpm : List ℚ)
    (load? : Option (List ℚ)) (o : Oracles) :
    ∀ s ∈ buildTrip speed rpm load? o,
      s.total_score = s.speeding_score + s.idle_score + s.harsh_braking_score +
        s.acceleration_score + s.anomaly_score := by
  intro s hs
  obtain ⟨i, hi, rfl⟩ := mem_buildTrip hs
  rfl

/-- Witness for C3 at the second row of the harsh-braking trip. -/
theorem total_score_is_sum_of_subscores_witness :
    (tripB.getD 1 default).total_score =
      (tripB.getD 1 default).speeding_score + (tripB.getD 1 default).idle_score +
        (tripB.getD 1 default).harsh_braking_score +
        (tripB.getD 1 default).acceleration_score +
        (tripB.getD 1 default).anomaly_score :=
  total_score_is_sum_of_subscores [60, 40] [3000, 2000] none oracle0 _ (by decide)

/-- C4: For every sample, letting `delta = speed_prev - speed`, the harsh
braking score is `-min(15, floor(delta / 2.5))` when `delta > 10` and 0
otherwise. -/
theorem harsh_braking_score_spec (speed rpm : List ℚ)
    (load? : Option (List ℚ)) (o : Oracles) :
    ∀ s ∈ buildTrip speed rpm load? o,
      s.harsh_braking_score =
        if s.speed_prev - s.speed > 10
        then -((min 15 ⌊(s.speed_prev - s.speed) / (5 / 2)⌋ : ℤ) : ℚ)
        else 0 := by
  intro s hs
  obtain ⟨i, hi, rfl⟩ := mem_buildTrip hs
  rfl

/-- Witness for C4, including the claim's scenario: `speed_prev = 60`,
`speed = 40` (delta 20) scores `-min(15, floor(20 / 2.5)) = -8`. -/
theorem harsh_braking_score_spec_witness :
    ((tripB.getD 1 default).harsh_braking_score = -8 ∧
      (tripB.getD 1 default).speed_prev = 60 ∧ (tripB.getD 1 default).speed = 40) ∧
    (tripB.getD 1 default).harsh_braking_score =
      (if (tripB.getD 1 default).speed_prev - (tripB.getD 1 default).speed > 10
       then -((min 15 ⌊((tripB.getD 1 default).speed_prev -
          (tripB.getD 1 default).speed) / (5 / 2)⌋ : ℤ) : ℚ)
       else 0) :=
  ⟨by decide,
    harsh_braking_score_spec [60, 40] [3000, 2000] none oracle0 _ (by decide)⟩

/-- C5: For every sample, the speeding score is
`-10 * (speed - dynamic_speed_limit) / dynamic_speed_limit` when
`speed > dynamic_speed_limit` and 0 otherwise; consequently a trip with
constant speed at or below the dynamic speed limit for its entire length has
`speeding_score = 0` on every sample. -/
theorem speeding_score_spec (speed rpm : List ℚ)
    (load? : Option (List ℚ)) (o : Oracles) :
    (∀ s ∈ buildTrip speed rpm load? o,
        s.speeding_score =
          if s.speed > s.dynamic_speed_limit
          then -10 * (s.speed - s.dynamic_speed_limit) / s.dynamic_speed_limit
          else 0) ∧
    (∀ (c : ℚ) (n : Nat),
        (∀ s ∈ buildTrip (List.replicate n c) rpm load? o,
            s.speed ≤ s.dynamic_speed_limit) →
        ∀ s ∈ buildTrip (List.replicate n c) rpm load? o, s.speeding_score = 0) := by
  constructor
  · intro s hs
    obtain ⟨i, hi, rfl⟩ := mem_buildTrip hs
    rfl
  · intro c n h s hs
    have hle := h s hs
    obtain ⟨i, hi, rfl⟩ := mem_buildTrip hs
    show speeding_score (List.replicate n c) i = 0
    unfold speeding_score
    exact if_neg (not_lt.mpr hle)

/-- Witness for C5: a constant-speed trip at 50 (below the default limit 80)
scores 0 at every sample; checked at its first sample. -/
theorem speeding_score_spec_witness :
    (∀ s ∈ buildTrip (List.replicate 3 (50 : ℚ)) [] none oracle0,
        s.speed ≤ s.dynamic_speed_limit) ∧
    (∀ s ∈ buildTrip (List.replicate 3 (50 : ℚ)) [] none oracle0,
        s.speeding_score = 0) :=
  ⟨by decide,
    (speeding_score_spec (List.replicate 3 (50 : ℚ)) [] none oracle0).2 50 3 (by decide)⟩

/-- C2: For every sample of every processed trip, each clipped field stays
within its declared bound: `speed_increase ∈ [-50, 50]`,
`rpm_increase ∈ [-5000, 5000]`, and `engine_stress`, `brake_wear`,
`tire_wear`, `maintenance_urgency` all in `[0, 100]`.  The urgency bound
rests on the scikit-learn contract that `predict_proba` values lie in
`[0, 1]`, stated here as the hypothesis on the oracle. -/
theorem clipped_fields_within_bounds (csv : RawCSV) (o : Oracles)
    (trip : List Sample) (hok : process csv o = Except.ok trip)
    (hp : ∀ p ∈ o.proba, 0 ≤ p ∧ p ≤ 1) :
    ∀ s ∈ trip,
      (-50 ≤ s.speed_increase ∧ s.speed_increase ≤ 50) ∧
      (-5000 ≤ s.rpm_increase ∧ s.rpm_increase ≤ 5000) ∧
      (0 ≤ s.engine_stress ∧ s.engine_stress ≤ 100) ∧
      (0 ≤ s.brake_wear ∧ s.brake_wear ≤ 100) ∧
      (0 ≤ s.tire_wear ∧ s.tire_wear ≤ 100) ∧
      (0 ≤ s.maintenance_urgency ∧ s.maintenance_urgency ≤ 100) := by
  obtain ⟨speed, rpm, load?, rfl⟩ := process_ok_shape csv o trip hok
  intro s hs
  obtain ⟨i, hi, rfl⟩ := mem_buildTrip hs
  refine ⟨?_, ?_, ?_, ?_, ?_, ?_⟩
  · exact clipQ_bounds (-50) 50 _ (by norm_num)
  · exact clipQ_bounds (-5000) 5000 _ (by norm_num)
  · exact clipQ_bounds 0 100 _ (by norm_num)
  · exact clipQ_bounds 0 100 _ (by norm_num)
  · show 0 ≤ tire_wear o.stdFn speed i ∧ tire_wear o.stdFn speed i ≤ 100
    unfold tire_wear
    split
    · norm_num
    · exact clipQ_bounds 0 100 _ (by norm_num)
  · show 0 ≤ maintenance_urgency o.proba i ∧ maintenance_urgency o.proba i ≤ 100
    obtain ⟨h0, h1⟩ := getD_unit_bounds o.proba i hp
    unfold maintenance_urgency
    constructor
    · positivity
    · nlinarith

/-- Witness for C2 on the one-row upload `csvW`. -/
theorem clipped_fields_within_bounds_witness :
    (process csvW oracleW = Except.ok tripW ∧
      ∀ p ∈ oracleW.proba, 0 ≤ p ∧ p ≤ 1) ∧
    ∀ s ∈ tripW,
      (-50 ≤ s.speed_increase ∧ s.speed_increase ≤ 50) ∧
      (-5000 ≤ s.rpm_increase ∧ s.rpm_increase ≤ 5000) ∧
      (0 ≤ s.engine_stress ∧ s.engine_stress ≤ 100) ∧
      (0 ≤ s.brake_wear ∧ s.brake_wear ≤ 100) ∧
      (0 ≤ s.tire_wear ∧ s.tire_wear ≤ 100) ∧
      (0 ≤ s.maintenance_urgency ∧ s.maintenance_urgency ≤ 100) :=
  ⟨⟨by rfl, by decide⟩,
    clipped_fields_within_bounds csvW oracleW tripW (by rfl) (by decide)⟩

/-- C6 fails on the code: on a sample whose speed is not below 5, the
`idle_rpm_threshold` column is `NaN` (modelled `none`), because the source
assigns a series indexed only by the idle rows and pandas alignment leaves
`NaN` elsewhere.  Here a one-row trip at speed 10 — where the claim asserts
the defined default 1500 — carries no threshold at all. -/
theorem idle_threshold_undefined_on_moving_sample :
    ((buildTrip [10] [2000] none oracle0).getD 0 default).idle_rpm_threshold = none := by
  decide

/-- C6 (amended): `idle_rpm_threshold` is defined exactly on the samples with
`speed < 5`.  There it equals the default 1500 while fewer than 10 idle
samples have been seen, and the 90th percentile of `rpm` over the trailing
window of up to 100 idle samples once at least 10 exist (so it never resets
to the default).  On samples with `speed ≥ 5` it is undefined (`NaN`). -/
theorem idle_rpm_threshold_cases (speed rpm : List ℚ) (load? : Option (List ℚ))
    (o : Oracles) (i : Nat) (hi : i < speed.length) :
    (speed.getD i 0 < 5 →
      ((idleRpmPrefix speed rpm i).length < 10 →
        ((buildTrip speed rpm load? o).getD i default).idle_rpm_threshold = some 1500) ∧
      (10 ≤ (idleRpmPrefix speed rpm i).length →
        ((buildTrip speed rpm load? o).getD i default).idle_rpm_threshold =
          some (quantileLinear (lastN 100 (idleRpmPrefix speed rpm i)) (90 / 100)))) ∧
    (¬ speed.getD i 0 < 5 →
      ((buildTrip speed rpm load? o).getD i default).idle_rpm_threshold = none) := by
  rw [buildTrip_getD speed rpm load? o hi]
  show (_ → (_ → idle_rpm_threshold speed rpm i = _) ∧
        (_ → idle_rpm_threshold speed rpm i = _)) ∧
      (_ → idle_rpm_threshold speed rpm i = _)
  unfold idle_rpm_threshold
  constructor
  · intro hlt
    constructor
    · intro hlen
      rw [if_pos hlt, if_neg (by omega)]
    · intro hlen
      rw [if_pos hlt, if_pos hlen]
  · intro hge
    rw [if_neg hge]

/-- Witness for C6 (amended), on a trip with two idle rows then a moving row:
the early idle samples carry the default 1500. -/
theorem idle_rpm_threshold_cases_witness :
    ((1 : Nat) < ([1, 1, 10] : List ℚ).length ∧
      (([1, 1, 10] : List ℚ).getD 1 0 < 5) ∧
      (idleRpmPrefix [1, 1, 10] [900, 950, 2000] 1).length < 10) ∧
    ((buildTrip [1, 1, 10] [900, 950, 2000] none oracle0).getD 1
        default).idle_rpm_threshold = some 1500 :=
  ⟨⟨by decide, by decide, by decide⟩,
    ((idle_rpm_threshold_cases [1, 1, 10] [900, 950, 2000] none oracle0 1
        (by decide)).1 (by decide)).1 (by decide)⟩

/-- C9 concerns a code bug: the pipeline offers no label input at all, and on
any upload it still returns a Trip whose `maintenance_urgency` is the
classifier probability × 100 — a concrete fabricated number, not an
undefined/unavailable marker.  The same upload with a different random-label
outcome yields a different number, exhibiting the fabrication. -/
theorem urgency_fabricated_without_labels :
    (∃ trip, process csvW oracleW = Except.ok trip ∧
      trip.map Sample.maintenance_urgency = [50]) ∧
    (∃ trip, process csvW oracleW2 = Except.ok trip ∧
      trip.map Sample.maintenance_urgency = [75]) :=
  ⟨⟨tripW, by rfl, by decide⟩,
    ⟨buildTrip [10] [2000] none oracleW2, by rfl, by decide⟩⟩

/-- C7: For every processed trip, the recommendation's status is `critical`
(the source's `red`) when the last sample's `maintenance_urgency` exceeds 75,
`warning` (`orange`) when it exceeds 50 but not 75, and `ok` (`green`)
otherwise. -/
theorem recommendation_status_spec (trip : List Sample) (h : trip ≠ []) :
    ((trip.getLast h).maintenance_urgency > 75 →
      specStatusName (recommendLast trip h).status = "critical") ∧
    ((trip.getLast h).maintenance_urgency > 50 ∧
        (trip.getLast h).maintenance_urgency ≤ 75 →
      specStatusName (recommendLast trip h).status = "warning") ∧
    ((trip.getLast h).maintenance_urgency ≤ 50 →
      specStatusName (recommendLast trip h).status = "ok") := by
  by_cases h75 : (trip.getLast h).maintenance_urgency > 75
  · refine ⟨fun _ => ?_, fun hw => absurd h75 (by push_neg; linarith [hw.2]),
      fun hle => absurd h75 (by push_neg; linarith)⟩
    simp [recommendLast, get_maintenance_recommendations, h75, specStatusName]
  · by_cases h50 : (trip.getLast h).maintenance_urgency > 50
    · refine ⟨fun hc => absurd hc h75, fun _ => ?_,
        fun hle => absurd h50 (by push_neg; linarith)⟩
      simp [recommendLast, get_maintenance_recommendations, h75, h50, specStatusName]
    · refine ⟨fun hc => absurd hc h75, fun hw => absurd hw.1 h50, fun _ => ?_⟩
      simp [recommendLast, get_maintenance_recommendations, h75, h50, specStatusName]

/-- Witness for C7: urgency 80 → status `critical`. -/
theorem recommendation_status_spec_witness :
    ([sampleC7].getLast (List.cons_ne_nil sampleC7 [])).maintenance_urgency > 75 ∧
    specStatusName (recommendLast [sampleC7] (List.cons_ne_nil sampleC7 [])).status =
      "critical" :=
  ⟨by decide,
    (recommendation_status_spec [sampleC7] (List.cons_ne_nil sampleC7 [])).1 (by decide)⟩

/-- C8: For every processed trip, the recommendation contains an Action
exactly for each wear metric of the last sample exceeding its fixed threshold
(`engine_stress > 80`, `brake_wear > 60`, `tire_wear > 70`), each naming its
component and carrying that component's fixed checklist, and the actions keep
the fixed enumeration order engine, brakes, tires regardless of magnitude. -/
theorem recommendation_actions_spec (trip : List Sample) (h : trip ≠ []) :
    List.Sublist ((recommendLast trip h).actions.map Action.component)
      ["Engine", "Brakes", "Tires"] ∧
    (Action.mk "Engine" (trip.getLast h).engine_stress engineSteps ∈
        (recommendLast trip h).actions ↔ (trip.getLast h).engine_stress > 80) ∧
    (Action.mk "Brakes" (trip.getLast h).brake_wear brakeSteps ∈
        (recommendLast trip h).actions ↔ (trip.getLast h).brake_wear > 60) ∧
    (Action.mk "Tires" (trip.getLast h).tire_wear tireSteps ∈
        (recommendLast trip h).actions ↔ (trip.getLast h).tire_wear > 70) := by
  by_cases he : (trip.getLast h).engine_stress > 80 <;>
    by_cases hb : (trip.getLast h).brake_wear > 60 <;>
      by_cases ht : (trip.getLast h).tire_wear > 70 <;>
        simp [recommendLast, get_maintenance_recommendations, he, hb, ht,
          Action.mk.injEq, engineSteps, brakeSteps, tireSteps]

/-- Witness for C8 on the claim's scenario: status `critical` and a single
`Engine` action with the engine checklist. -/
theorem recommendation_actions_spec_witness :
    ((recommendLast [sampleC8] (List.cons_ne_nil sampleC8 [])).actions =
        [Action.mk "Engine" 85
          ["Check coolant levels", "Inspect oil quality", "Clean air filters"]] ∧
      specStatusName
        (recommendLast [sampleC8] (List.cons_ne_nil sampleC8 [])).status =
          "critical") ∧
    (List.Sublist
        ((recommendLast [sampleC8] (List.cons_ne_nil sampleC8 [])).actions.map
          Action.component) ["Engine", "Brakes", "Tires"] ∧
      (Action.mk "Engine"
          ([sampleC8].getLast (List.cons_ne_nil sampleC8 [])).engine_stress
          engineSteps ∈
          (recommendLast [sampleC8] (List.cons_ne_nil sampleC8 [])).actions ↔
        ([sampleC8].getLast (List.cons_ne_nil sampleC8 [])).engine_stress > 80) ∧
      (Action.mk "Brakes"
          ([sampleC8].getLast (List.cons_ne_nil sampleC8 [])).brake_wear
          brakeSteps ∈
          (recommendLast [sampleC8] (List.cons_ne_nil sampleC8 [])).actions ↔
        ([sampleC8].getLast (List.cons_ne_nil sampleC8 [])).brake_wear > 60) ∧
      (Action.mk "Tires"
          ([sampleC8].getLast (List.cons_ne_nil sampleC8 [])).tire_wear
          tireSteps ∈
          (recommendLast [sampleC8] (List.cons_ne_nil sampleC8 [])).actions ↔
        ([sampleC8].getLast (List.cons_ne_nil sampleC8 [])).tire_wear > 70)) :=
  ⟨by decide, recommendation_actions_spec [sampleC8] (List.cons_ne_nil sampleC8 [])⟩

/-- C10 (implicit invariant): for every sample of every trip,
`brake_wear ≤ 5` — each of the at most 5 window terms is
`|harsh_braking_score| / 15 ≤ 1` since the harsh-braking score lies in
`[-15, 0]` — so `brake_wear` can never exceed the recommendation threshold
60, and a `Brakes` maintenance action is never emitted for any input. -/
theorem brake_wear_bounded_no_brakes_action (speed rpm : List ℚ)
    (load? : Option (List ℚ)) (o : Oracles) :
    ∀ s ∈ buildTrip speed rpm load? o,
      s.brake_wear ≤ 5 ∧
      ∀ a ∈ (get_maintenance_recommendations s).actions, a.component ≠ "Brakes" := by
  intro s hs
  obtain ⟨i, hi, rfl⟩ := mem_buildTrip hs
  have hbw : (mkSample speed rpm load? o i).brake_wear ≤ 5 :=
    brake_wear_le_five_aux speed i
  refine ⟨hbw, ?_⟩
  intro a ha
  have hnb : ¬ ((mkSample speed rpm load? o i).brake_wear > 60) := by
    push_neg
    linarith
  unfold get_maintenance_recommendations at ha
  rw [List.mem_append, List.mem_append] at ha
  rcases ha with (ha | ha) | ha
  · rw [mem_ite_singleton ha]
    show ("Engine" : String) ≠ "Brakes"
    decide
  · rw [if_neg hnb] at ha
    simp at ha
  · rw [mem_ite_singleton ha]
    show ("Tires" : String) ≠ "Brakes"
    decide

/-- Witness for C10 on the harsh-braking trip `tripB` (its second sample has
a nonzero harsh-braking score, hence nonzero `brake_wear`). -/
theorem brake_wear_bounded_no_brakes_action_witness :
    (tripB.getD 1 default).brake_wear ≤ 5 ∧
    ∀ a ∈ (get_maintenance_recommendations (tripB.getD 1 default)).actions,
      a.component ≠ "Brakes" :=
  brake_wear_bounded_no_brakes_action [60, 40] [3000, 2000] none oracle0 _ (by decide)

end Bus
